import Mathlib

/-!
# The DSSTNE JNI bridge: reference registry and boundary operations

A shallow embedding of `java/src/main/native/jni_util.cpp` and
`java/src/main/native/com_amazon_dsstne_Dsstne.cpp`.

* The managed runtime (`JNIEnv`) is a record: the classes and methods it can resolve, its
  object heap, the pending throwable, and a trace of every JNI function called, in order.
* Native control flow is explicit.  `ThrowNew` only marks a throwable as pending; the native
  frame keeps running until it returns, exactly as in C++.
* A run ends in `Except.ok` with the new state, or in a `Fault`: the process did not return
  to the managed caller.
* C++ overload resolution is made explicit.  Every call `throwJavaException(env, T, msg)` in
  the two files has a `const std::string` first argument, so it can only bind to the
  overload taking const references.  The functions below receive that callee as `raise`;
  the program as written is obtained with `raise := throwJavaException_const fuel`.
* `std::string` is a text (`String`).  Where the source hands a `const char*` obtained with
  `c_str()` to the exception and layer marshalling (`throwJavaException`, the loop of
  `get_layers`), the callee sees the characters before the first NUL: `c_str`.  Class
  names, method names and descriptors are handed to the runtime as the texts they are.
* `jint`, `jlong` and `int` are `Int`; a `uint32_t` variable is a `Nat` reduced modulo
  `2^32`.  Variadic constructor arguments are recorded as the native side passes them, and a
  managed constructor with descriptor `(Ljava/lang/String;IIIIII)V` receives each integer
  argument as the `jint` with the same 32 bits: `toJint`.
* `Java_com_amazon_dsstne_Dsstne_predict` (lines 150-162) is not embedded; no property
  below concerns it.
-/

namespace dsstne

/-! ## Managed-runtime values -/

/-- Class reference `jclass`: null, a local reference, or a pinned global reference.
Each `NewGlobalRef` hands out a fresh `id`, so two pins of one class are distinguishable. -/
inductive jclass
  | null
  | localRef (cls : String)
  | globalRef (id : Nat) (cls : String)
  deriving DecidableEq

/-- Name of the class a reference denotes; `none` for the null reference. -/
def jclass.className : jclass → Option String
  | .null => none
  | .localRef cls => some cls
  | .globalRef _ cls => some cls

/-- What a non-null `jmethodID` identifies. -/
structure MethodRef where
  cls : String
  name : String
  descriptor : String
  deriving DecidableEq

/-- Method handle `jmethodID`; `none` is `NULL`. -/
abbrev jmethodID := Option MethodRef

/-- Object reference `jobject`. -/
inductive jobject
  | null
  | ref (addr : Nat)
  deriving DecidableEq

/-- One argument of a variadic JNI call, as the native side passes it. -/
inductive JArg
  | jstring (text : String)
  | int (v : Int)
  | uint32 (v : Nat)
  deriving DecidableEq

/-- Heap cell of the managed runtime: class, constructor arguments, and the elements
appended so far through `add` (used by `java/util/ArrayList`). -/
structure JObject where
  cls : String
  ctorArgs : List JArg
  elements : List jobject
  deriving DecidableEq

/-- One JNI function call, as recorded in the trace. -/
inductive JniCall
  | FindClass (name : String)
  | NewGlobalRef (c : jclass)
  | DeleteGlobalRef (c : jclass)
  | DeleteLocalRef (c : jclass)
  | GetMethodID (c : jclass) (name descriptor : String)
  | ThrowNew (c : jclass) (message : String)
  | NewObjectV (c : jclass) (ctor : jmethodID) (args : List JArg)
  | CallBooleanMethod (obj : jobject) (m : jmethodID) (arg : jobject)
  | NewStringUTF (text : String)
  | GetStringUTFChars (text : String)
  | ReleaseStringUTFChars (text : String)
  deriving DecidableEq

/-- State of the managed runtime as seen through `JNIEnv*`. -/
structure JNIEnv where
  classes : List String
  methods : List MethodRef
  nextGlobal : Nat
  heap : List JObject
  pending : Option (jclass × String)
  trace : List JniCall

/-- Ways a native call fails to return to its caller. -/
inductive Fault
  | diverges
  | null_dereference
  | out_of_range
  | exit (code : Int)
  deriving DecidableEq

/-- The callee reached by a call `throwJavaException(env, exceptionType, msg)`. -/
abbrev Thrower := JNIEnv → String → String → Except Fault JNIEnv

/-- What the receiver of `s.c_str()` sees: the characters of `s` before the first NUL. -/
def c_str (s : String) : String :=
  String.mk (s.data.takeWhile (fun c => c ≠ Char.ofNat 0))

/-- The `jint` (two's complement, 32 bits) with the same low 32 bits as `z`. -/
def toJint (z : Int) : Int :=
  (z + 2147483648) % 4294967296 - 2147483648

namespace jni

/-! ## jni_util.cpp: constants -/

def CONSTRUCTOR_METHOD_NAME : String := "<init>"

def RuntimeException : String := "java/lang/RuntimeException"
def NullPointerException : String := "java/lang/NullPointerException"
def IllegalStateException : String := "java/lang/IllegalStateException"
def IllegalArgumentException : String := "java/lang/IllegalArgumentException"
def ClassNotFoundException : String := "java/lang/ClassNotFoundException"
def NoSuchMethodException : String := "java/lang/NoSuchMethodException"
def FileNotFoundException : String := "java/io/FileNotFoundException"
def UnsupportedOperationException : String := "java/lang/UnsupportedOperationException"

def ArrayList : String := "java/util/ArrayList"

def NNLayer : String := "com/amazon/dsstne/NNLayer"

def NO_ARGS_CONSTRUCTOR : String := "()V"

end jni

/-! ## The JNI functions the bridge calls -/

namespace JNIEnv

/-- Append one call to the trace. -/
def record (env : JNIEnv) (c : JniCall) : JNIEnv :=
  { env with trace := env.trace ++ [c] }

/-- The runtime part of `FindClass`: a local reference when the runtime resolves the name,
`NULL` otherwise. -/
def FindClass (env : JNIEnv) (name : String) : JNIEnv × jclass :=
  (env.record (.FindClass name), if name ∈ env.classes then .localRef name else .null)

/-- The runtime part of `NewGlobalRef`: pins a non-null reference under a fresh id;
`NULL` stays `NULL`. -/
def NewGlobalRef (env : JNIEnv) (c : jclass) : JNIEnv × jclass :=
  match c.className with
  | none => (env.record (.NewGlobalRef c), .null)
  | some cls =>
    ({ env.record (.NewGlobalRef c) with nextGlobal := env.nextGlobal + 1 },
     .globalRef env.nextGlobal cls)

def DeleteGlobalRef (env : JNIEnv) (c : jclass) : JNIEnv :=
  env.record (.DeleteGlobalRef c)

def DeleteLocalRef (env : JNIEnv) (c : jclass) : JNIEnv :=
  env.record (.DeleteLocalRef c)

/-- The runtime part of `GetMethodID`: the handle when the class has a method of that name
and descriptor, `NULL` otherwise. -/
def GetMethodID (env : JNIEnv) (c : jclass) (name descriptor : String) : JNIEnv × jmethodID :=
  (env.record (.GetMethodID c name descriptor),
   match c.className with
   | none => none
   | some cls =>
     if MethodRef.mk cls name descriptor ∈ env.methods then some ⟨cls, name, descriptor⟩
     else none)

/-- The runtime part of `ThrowNew`: a throwable of class `c` with the message becomes the
pending exception.  With a null class no throwable can be built. -/
def ThrowNew (env : JNIEnv) (c : jclass) (message : String) : JNIEnv :=
  { env.record (.ThrowNew c message) with
    pending := if c = .null then env.pending else some (c, message) }

/-- The runtime part of `NewObjectV`: allocates an instance when handed a class and a
constructor of that class, and returns `NULL` otherwise. -/
def NewObjectV (env : JNIEnv) (clazz : jclass) (ctor : jmethodID) (args : List JArg) :
    JNIEnv × jobject :=
  match clazz.className, ctor with
  | some cls, some m =>
    if m.cls = cls ∧ m.name = jni.CONSTRUCTOR_METHOD_NAME then
      ({ env.record (.NewObjectV clazz ctor args) with
           heap := env.heap ++ [{ cls := cls, ctorArgs := args, elements := [] }] },
       .ref env.heap.length)
    else (env.record (.NewObjectV clazz ctor args), .null)
  | _, _ => (env.record (.NewObjectV clazz ctor args), .null)

/-- The runtime part of `CallBooleanMethod`, for the one method the bridge invokes:
`java/util/ArrayList#add(Ljava/lang/Object;)Z` appends its argument to the receiver. -/
def CallBooleanMethod (env : JNIEnv) (obj : jobject) (m : jmethodID) (arg : jobject) : JNIEnv :=
  let env1 := env.record (.CallBooleanMethod obj m arg)
  match obj, m with
  | .ref a, some mr =>
    match env.heap[a]? with
    | some o =>
      if o.cls = jni.ArrayList ∧ mr = ⟨jni.ArrayList, "add", "(Ljava/lang/Object;)Z"⟩ then
        { env1 with heap := env.heap.set a { o with elements := o.elements ++ [arg] } }
      else env1
    | none => env1
  | _, _ => env1

/-- The runtime part of `NewStringUTF`: a managed string with the given text. -/
def NewStringUTF (env : JNIEnv) (text : String) : JNIEnv × JArg :=
  (env.record (.NewStringUTF text), .jstring text)

def GetStringUTFChars (env : JNIEnv) (text : String) : JNIEnv × String :=
  (env.record (.GetStringUTFChars text), text)

def ReleaseStringUTFChars (env : JNIEnv) (text : String) : JNIEnv :=
  env.record (.ReleaseStringUTFChars text)

end JNIEnv

namespace jni

/-! ## jni_util.cpp: the reference registry -/

/-- Lookup in a `std::map<std::string, jclass>`, kept as a key-sorted association list. -/
def mapFind : List (String × jclass) → String → Option jclass
  | [], _ => none
  | (k, v) :: rest, key => if key = k then some v else mapFind rest key

/-- Assignment `m[key] = v` on a `std::map<std::string, jclass>`: replaces the value of an
existing key, otherwise inserts in key order (`std::string` order: lexicographic on the
characters). -/
def mapPut : List (String × jclass) → String → jclass → List (String × jclass)
  | [], key, v => [(key, v)]
  | (k, v0) :: rest, key, v =>
    if key = k then (k, v) :: rest
    else if key.data < k.data then (key, v) :: (k, v0) :: rest
    else (k, v0) :: mapPut rest key v

/-- Registry `References`: the table `classGlobalRefs`. -/
structure References where
  classGlobalRefs : List (String × jclass)
  deriving DecidableEq

/-- `deleteReferences`, jni_util.cpp lines 55-60. -/
def deleteReferences (env : JNIEnv) (refs : References) : JNIEnv × References :=
  (refs.classGlobalRefs.foldl (fun e entry => e.DeleteGlobalRef entry.2) env,
   { refs with classGlobalRefs := [] })

/-- `References::getClassGlobalRef`, lines 62-64: `std::map::at` throws
`std::out_of_range` for a missing key. -/
def References.getClassGlobalRef (refs : References) (className : String) : Except Fault jclass :=
  match mapFind refs.classGlobalRefs className with
  | some c => .ok c
  | none => .error .out_of_range

/-- `References::containsClassGlobalRef`, lines 66-68. -/
def References.containsClassGlobalRef (refs : References) (className : String) : Bool :=
  (mapFind refs.classGlobalRefs className).isSome

/-- `References::putClassGlobalRef`, lines 70-72. -/
def References.putClassGlobalRef (refs : References) (className : String) (classRef : jclass) :
    References :=
  { refs with classGlobalRefs := mapPut refs.classGlobalRefs className classRef }

/-! ## jni_util.cpp: exception translation -/

/-- `throwJavaException(JNIEnv*, std::string&, std::string&)`, lines 74-87. -/
def throwJavaException (env : JNIEnv) (exceptionType msg : String) : JNIEnv :=
  let message := msg
  let r := env.FindClass (c_str exceptionType)
  if r.2 = .null then
    let r2 := r.1.FindClass (c_str ClassNotFoundException)
    let m := "Cannot throw " ++ exceptionType ++ ":" ++ msg ++ "." ++ exceptionType
      ++ " does not exist."
    r2.1.ThrowNew r2.2 (c_str m)
  else
    r.1.ThrowNew r.2 (c_str message)

/-- `throwJavaException(JNIEnv*, const std::string&, const std::string&)`, lines 89-91.
The body calls `throwJavaException(env, exceptionType, msg.c_str())`.  Its arguments are a
`const std::string` and a `const char*`; neither binds to the `std::string&` parameters
of the first overload, so the call resolves to this overload again, with `msg` rebuilt
from `msg.c_str()`.  `fuel` bounds the number of nested calls. -/
def throwJavaException_const : Nat → Thrower
  | 0, _, _, _ => .error .diverges
  | fuel + 1, env, exceptionType, msg =>
    throwJavaException_const fuel env exceptionType (c_str msg)

/-- The callee the const overload would reach if its call bound to the first overload. -/
def throwJavaException_delegating : Thrower :=
  fun env exceptionType msg => .ok (throwJavaException env exceptionType msg)

/-! ## jni_util.cpp: resolution and construction -/

/-- `findClassGlobalRef`, lines 100-115. -/
def findClassGlobalRef (raise : Thrower) (env : JNIEnv) (refs : References)
    (className : String) : Except Fault (JNIEnv × References × jclass) :=
  if refs.containsClassGlobalRef className then
    match refs.getClassGlobalRef className with
    | .error f => .error f
    | .ok c => .ok (env, refs, c)
  else
    let r := env.FindClass className
    let classLocalRef := r.2
    match (if classLocalRef = .null then raise r.1 ClassNotFoundException className
           else .ok r.1) with
    | .error f => .error f
    | .ok env1 =>
      let g := env1.NewGlobalRef classLocalRef
      let classGlobalRef := g.2
      let refs1 := refs.putClassGlobalRef className classGlobalRef
      let env2 := g.1.DeleteLocalRef classLocalRef
      .ok (env2, refs1, classGlobalRef)

/-- `findMethodId`, lines 117-129. -/
def findMethodId (raise : Thrower) (env : JNIEnv) (refs : References)
    (className methodName methodDescriptor : String) :
    Except Fault (JNIEnv × References × jmethodID) :=
  match findClassGlobalRef raise env refs className with
  | .error f => .error f
  | .ok (env1, refs1, clazz) =>
    let r := env1.GetMethodID clazz methodName methodDescriptor
    let methodId := r.2
    if methodId = none then
      match raise r.1 NoSuchMethodException (className ++ "#" ++ methodName ++ methodDescriptor) with
      | .error f => .error f
      | .ok env2 => .ok (env2, refs1, methodId)
    else .ok (r.1, refs1, methodId)

/-- `findConstructorId`, lines 131-134. -/
def findConstructorId (raise : Thrower) (env : JNIEnv) (refs : References)
    (className methodDescriptor : String) : Except Fault (JNIEnv × References × jmethodID) :=
  findMethodId raise env refs className CONSTRUCTOR_METHOD_NAME methodDescriptor

/-- `newObject`, lines 136-152. -/
def newObject (raise : Thrower) (env : JNIEnv) (refs : References) (className : String)
    (jConstructor : jmethodID) (args : List JArg) : Except Fault (JNIEnv × jobject) :=
  match refs.getClassGlobalRef className with
  | .error f => .error f
  | .ok clazz =>
    let r := env.NewObjectV clazz jConstructor args
    let obj := r.2
    if obj = .null then
      match raise r.1 RuntimeException
          ("Unable to create new object: " ++ className ++ "#" ++ CONSTRUCTOR_METHOD_NAME) with
      | .error f => .error f
      | .ok env1 => .ok (env1, obj)
    else .ok (r.1, obj)

end jni

/-! ## The native engine, as the bridge consumes it -/

/-- Modelled from the spec: the engine's layer record (engine/NNLayer.h is not among the
sources), with the per-layer accessors of the collaborator interface: name, kind,
attributes, dimension count, dimension tuple. -/
structure NNLayer where
  _name : String
  _kind : Int
  _attributes : Nat
  _numDimensions : Nat
  _Nx : Nat
  _Ny : Nat
  _Nz : Nat
  _Nw : Nat
  deriving DecidableEq

def NNLayer.GetName (l : NNLayer) : String := l._name

def NNLayer.GetKind (l : NNLayer) : Int := l._kind

def NNLayer.GetAttributes (l : NNLayer) : Nat := l._attributes

def NNLayer.GetNumDimensions (l : NNLayer) : Nat := l._numDimensions

def NNLayer.GetDimensions (l : NNLayer) : Nat × Nat × Nat × Nat := (l._Nx, l._Ny, l._Nz, l._Nw)

/-- Modelled from the spec: the engine's network (engine/NNNetwork.h is not among the
sources): a name and the layers as stored in the layer graph. -/
structure NNNetwork where
  _name : String
  _vLayer : List NNLayer
  deriving DecidableEq

def NNNetwork.GetName (n : NNNetwork) : String := n._name

/-- Modelled from the spec: `NNNetwork::GetLayers(kind, layers)`, the collaborator operation
`getLayers(kind) -> sequence`: the layers of the requested kind, in stored order.  The
bridge passes an empty vector, so the iterator it gets back ranges over exactly this
sequence and equals `layers.end()` when the sequence is empty. -/
def NNNetwork.GetLayers (n : NNNetwork) (kind : Int) : List NNLayer :=
  n._vLayer.filter (fun l => l._kind = kind)

/-- One engine operation invoked by the bridge. -/
inductive EngineCall
  | Startup (argc : Nat) (argv : String)
  | SetRandomSeed (seed : Nat)
  | LoadNeuralNetworkNetCDF (fileName : String) (batch : Int)
  | SetNeuralNetwork (network : Option NNNetwork)
  | Shutdown
  deriving DecidableEq

/-- Modelled from the spec: the process-global engine context behind `getGpu()`
(engine/GpuTypes.h is not among the sources): the bound network `_pNetwork` (`none` is
`NULL`) and the engine operations invoked so far. -/
structure GpuContext where
  _pNetwork : Option NNNetwork
  calls : List EngineCall
  deriving DecidableEq

/-- Modelled from the spec: `startup(argc, argv)`. -/
def GpuContext.Startup (g : GpuContext) (argc : Nat) (argv : String) : GpuContext :=
  { g with calls := g.calls ++ [.Startup argc argv] }

/-- Modelled from the spec: `setRandomSeed(seed)`. -/
def GpuContext.SetRandomSeed (g : GpuContext) (seed : Nat) : GpuContext :=
  { g with calls := g.calls ++ [.SetRandomSeed seed] }

/-- Modelled from the spec: `bindNetwork(network)` binds the network to the context. -/
def GpuContext.SetNeuralNetwork (g : GpuContext) (network : Option NNNetwork) : GpuContext :=
  { g with _pNetwork := network, calls := g.calls ++ [.SetNeuralNetwork network] }

/-- Modelled from the spec: `shutdown()`. -/
def GpuContext.Shutdown (g : GpuContext) : GpuContext :=
  { g with calls := g.calls ++ [.Shutdown] }

/-- Modelled from the spec: what the bridge takes from the engine without defining it: the
network loader `loadNetwork(path, batchSize) -> network` (`none` is no network), the table
`NNLayer::_sKindMap`, and the non-null address of the context returned by `getGpu()`. -/
structure Engine where
  loadNetwork : String → Int → Option NNNetwork
  _sKindMap : Int → String
  gpuAddress : Int
  gpuAddress_ne_zero : gpuAddress ≠ 0

/-- The free function `LoadNeuralNetworkNetCDF` of the engine, called by `load`. -/
def LoadNeuralNetworkNetCDF (eng : Engine) (g : GpuContext) (fileName : String) (batch : Int) :
    GpuContext × Option NNNetwork :=
  ({ g with calls := g.calls ++ [.LoadNeuralNetworkNetCDF fileName batch] },
   eng.loadNetwork fileName batch)

/-! ## com_amazon_dsstne_Dsstne.cpp -/

def SEED : Nat := 12134

def LIB_MPI_SO : String := "libmpi.so"

def ARGC : Nat := 1

def ARGV : String := "jni-faux-process"

def JNI_OK : Int := 0

def JNI_ERR : Int := -1

def JNI_VERSION_1_6 : Int := 0x00010006

/-- Process state of the bridge: the managed runtime, the file-level statics `REFS`,
`java_ArrayList_`, `java_ArrayList_add`, `dsstne_NNLayer_`, and the engine context. -/
structure World where
  env : JNIEnv
  REFS : jni.References
  java_ArrayList_ : jmethodID
  java_ArrayList_add : jmethodID
  dsstne_NNLayer_ : jmethodID
  gpu : GpuContext

/-- `checkPtr`, com_amazon_dsstne_Dsstne.cpp lines 45-53.  The result is the pointer that
was passed in, also after the throw. -/
def checkPtr (raise : Thrower) (env : JNIEnv) (ptr : Int) : Except Fault (JNIEnv × Int) :=
  let gpuContext := ptr
  if gpuContext = 0 then
    match raise env jni.RuntimeException
        "GpuContext pointer is null, call init prior to any other functions" with
    | .error f => .error f
    | .ok env1 => .ok (env1, gpuContext)
  else .ok (env, gpuContext)

/-- `JNI_OnLoad`, lines 56-83.  `libmpi` tells whether `dlopen` returned a handle and
`getEnv` is the status returned by `vm->GetEnv`. -/
def JNI_OnLoad (raise : Thrower) (libmpi : Bool) (getEnv : Int) (w : World) :
    Except Fault (World × Int) :=
  if libmpi = false then .error (.exit 1)
  else if getEnv ≠ JNI_OK then .ok (w, JNI_ERR)
  else
    match jni.findConstructorId raise w.env w.REFS jni.ArrayList jni.NO_ARGS_CONSTRUCTOR with
    | .error f => .error f
    | .ok (env1, refs1, m1) =>
      match jni.findMethodId raise env1 refs1 jni.ArrayList "add" "(Ljava/lang/Object;)Z" with
      | .error f => .error f
      | .ok (env2, refs2, m2) =>
        match jni.findConstructorId raise env2 refs2 jni.NNLayer
            "(Ljava/lang/String;IIIIII)V" with
        | .error f => .error f
        | .ok (env3, refs3, m3) =>
          .ok ({ w with env := env3, REFS := refs3, java_ArrayList_ := m1,
                        java_ArrayList_add := m2, dsstne_NNLayer_ := m3 },
               JNI_VERSION_1_6)

/-- `JNI_OnUnload`, lines 85-94. -/
def JNI_OnUnload (getEnv : Int) (w : World) : World :=
  if getEnv ≠ JNI_OK then w
  else
    let r := jni.deleteReferences w.env w.REFS
    { w with env := r.1, REFS := r.2 }

/-- `Java_com_amazon_dsstne_Dsstne_load`, lines 96-107. -/
def Java_com_amazon_dsstne_Dsstne_load (eng : Engine) (w : World) (jNetworkFileName : String)
    (batchSize : Int) : World × Int :=
  let r := w.env.GetStringUTFChars jNetworkFileName
  let networkFileName := r.2
  let g1 := w.gpu.Startup ARGC ARGV
  let g2 := g1.SetRandomSeed SEED
  let l := LoadNeuralNetworkNetCDF eng g2 networkFileName batchSize
  let network := l.2
  let g3 := l.1.SetNeuralNetwork network
  let env1 := r.1.ReleaseStringUTFChars networkFileName
  ({ w with env := env1, gpu := g3 }, eng.gpuAddress)

/-- `Java_com_amazon_dsstne_Dsstne_shutdown`, lines 109-112.  Line 111 calls `Shutdown`
through whatever pointer `checkPtr` returned; through a null pointer that is a
`null_dereference`. -/
def Java_com_amazon_dsstne_Dsstne_shutdown (raise : Thrower) (w : World) (ptr : Int) :
    Except Fault World :=
  match checkPtr raise w.env ptr with
  | .error f => .error f
  | .ok (env1, gpuContext) =>
    if gpuContext = 0 then .error .null_dereference
    else .ok { w with env := env1, gpu := w.gpu.Shutdown }

/-- The loop of `get_layers`, lines 130-146, over the layers from `it` to `layers.end()`.
`kind` is an `int`, `attributes`, `numDim`, `lx`, `ly`, `lz` are `uint32_t` variables, and
`NewStringUTF` is handed `name.c_str()`. -/
def get_1layers_loop (raise : Thrower) (refs : jni.References) (dsstne_NNLayer_ : jmethodID)
    (java_ArrayList_add : jmethodID) (jLayers : jobject) :
    JNIEnv → List NNLayer → Except Fault JNIEnv
  | env, [] => .ok env
  | env, layer :: rest =>
    let name := layer.GetName
    let kind := toJint layer.GetKind
    let attributes := layer.GetAttributes % 4294967296
    let s := env.NewStringUTF (c_str name)
    let jName := s.2
    let numDim := layer.GetNumDimensions % 4294967296
    let dims := layer.GetDimensions
    let lx := dims.1 % 4294967296
    let ly := dims.2.1 % 4294967296
    let lz := dims.2.2.1 % 4294967296
    match jni.newObject raise s.1 refs jni.NNLayer dsstne_NNLayer_
        [jName, .int kind, .uint32 attributes, .uint32 numDim, .uint32 lx, .uint32 ly,
         .uint32 lz] with
    | .error f => .error f
    | .ok (env1, jInputLayer) =>
      match refs.getClassGlobalRef jni.ArrayList with
      | .error f => .error f
      | .ok _ =>
        let env2 := env1.CallBooleanMethod jLayers java_ArrayList_add jInputLayer
        get_1layers_loop raise refs dsstne_NNLayer_ java_ArrayList_add jLayers env2 rest

/-- `Java_com_amazon_dsstne_Dsstne_get_1layers`, lines 114-148.  A non-null `ptr` denotes
the process-global context; `_pNetwork` and `GetLayers` are reached through the pointers
`gpuContext` and `network`, a `null_dereference` when the pointer is null. -/
def Java_com_amazon_dsstne_Dsstne_get_1layers (raise : Thrower) (eng : Engine) (w : World)
    (ptr : Int) (kindOrdinal : Int) : Except Fault (World × jobject) :=
  match checkPtr raise w.env ptr with
  | .error f => .error f
  | .ok (env1, gpuContext) =>
    if gpuContext = 0 then .error .null_dereference
    else
      match w.gpu._pNetwork with
      | none => .error .null_dereference
      | some network =>
        let kind := kindOrdinal
        let layers := network.GetLayers kind
        match (if layers = [] then
                 raise env1 jni.RuntimeException
                   ("No layers of type " ++ eng._sKindMap kind ++ " found in network: "
                     ++ network.GetName)
               else .ok env1) with
        | .error f => .error f
        | .ok env2 =>
          match jni.newObject raise env2 w.REFS jni.ArrayList w.java_ArrayList_ [] with
          | .error f => .error f
          | .ok (env3, jLayers) =>
            match get_1layers_loop raise w.REFS w.dsstne_NNLayer_ w.java_ArrayList_add
                jLayers env3 layers with
            | .error f => .error f
            | .ok env4 => .ok ({ w with env := env4 }, jLayers)

/-! ## Vocabulary of the specification -/

/-- The registry and the cached handles are as a completed attach leaves them: both types
registered under a reference to their class, and the three callables resolved. -/
structure Attached (w : World) : Prop where
  arrayList :
    (jni.mapFind w.REFS.classGlobalRefs jni.ArrayList).bind jclass.className
      = some jni.ArrayList
  nnLayer :
    (jni.mapFind w.REFS.classGlobalRefs jni.NNLayer).bind jclass.className = some jni.NNLayer
  ctorArrayList : w.java_ArrayList_ = some ⟨jni.ArrayList, "<init>", "()V"⟩
  addArrayList : w.java_ArrayList_add = some ⟨jni.ArrayList, "add", "(Ljava/lang/Object;)Z"⟩
  ctorNNLayer : w.dsstne_NNLayer_ = some ⟨jni.NNLayer, "<init>", "(Ljava/lang/String;IIIIII)V"⟩

/-- Layer descriptor of the specification, as the managed side holds it: a text and six
Java `int`s (name, kind, attributes, numDimensions, dimX, dimY, dimZ). -/
structure LayerDescriptor where
  name : String
  kind : Int
  attributes : Int
  numDimensions : Int
  dimX : Int
  dimY : Int
  dimZ : Int
  deriving DecidableEq

/-- The descriptor that carries a native layer's fields unchanged. -/
def LayerDescriptor.unchanged (l : NNLayer) : LayerDescriptor :=
  { name := l._name, kind := l._kind, attributes := l._attributes,
    numDimensions := l._numDimensions, dimX := l._Nx, dimY := l._Ny, dimZ := l._Nz }

/-- The descriptor of a native layer after marshalling: the name cut at its first NUL, and
each integer as the `jint` with the same 32 bits. -/
def LayerDescriptor.ofLayer (l : NNLayer) : LayerDescriptor :=
  { name := c_str l._name, kind := toJint l._kind, attributes := toJint l._attributes,
    numDimensions := toJint l._numDimensions, dimX := toJint l._Nx, dimY := toJint l._Ny,
    dimZ := toJint l._Nz }

/-- The text has no NUL character. -/
def nulFree (s : String) : Prop := Char.ofNat 0 ∉ s.data

/-- A layer whose fields survive marshalling: a name without NUL, a kind in the range of
`int`, and attributes, dimension count and dimensions below `2^31`. -/
structure NNLayer.fitsJava (l : NNLayer) : Prop where
  name : nulFree l._name
  kind_lower : -2147483648 ≤ l._kind
  kind_upper : l._kind < 2147483648
  attributes : l._attributes < 2147483648
  numDimensions : l._numDimensions < 2147483648
  nx : l._Nx < 2147483648
  ny : l._Ny < 2147483648
  nz : l._Nz < 2147483648

/-- Reads a managed `com/amazon/dsstne/NNLayer` object back as a descriptor, the way its
constructor `(Ljava/lang/String;IIIIII)V` received the arguments: the string, and each
integer argument as the `jint` with the same 32 bits. -/
def readDescriptor (heap : List JObject) : jobject → Option LayerDescriptor
  | .null => none
  | .ref a =>
    match heap[a]? with
    | some o =>
      if o.cls = jni.NNLayer then
        match o.ctorArgs with
        | [.jstring n, .int k, .uint32 attrs, .uint32 nd, .uint32 x, .uint32 y, .uint32 z] =>
          some { name := n, kind := toJint k, attributes := toJint attrs,
                 numDimensions := toJint nd, dimX := toJint x, dimY := toJint y,
                 dimZ := toJint z }
        | _ => none
      else none
    | none => none

/-- Reads every element of a list of references as a descriptor, in order. -/
def readDescriptors (heap : List JObject) : List jobject → Option (List LayerDescriptor)
  | [] => some []
  | e :: es =>
    match readDescriptor heap e, readDescriptors heap es with
    | some d, some ds => some (d :: ds)
    | _, _ => none

/-- The collection a `jobject` denotes: it must be a `java/util/ArrayList` whose elements
are all layer descriptors. -/
def readCollection (env : JNIEnv) : jobject → Option (List LayerDescriptor)
  | .null => none
  | .ref a =>
    match env.heap[a]? with
    | some o => if o.cls = jni.ArrayList then readDescriptors env.heap o.elements else none
    | none => none

/-- The heap cell `NewObjectV` allocates for one native layer in the loop of `get_layers`. -/
def layerCell (l : NNLayer) : JObject :=
  { cls := jni.NNLayer,
    ctorArgs := [.jstring (c_str l._name), .int (toJint l._kind),
                 .uint32 (l._attributes % 4294967296), .uint32 (l._numDimensions % 4294967296),
                 .uint32 (l._Nx % 4294967296), .uint32 (l._Ny % 4294967296),
                 .uint32 (l._Nz % 4294967296)],
    elements := [] }

/-- Consecutive object references `base, base + 1, ...`, `n` of them. -/
def refsFrom : Nat → Nat → List jobject
  | _, 0 => []
  | base, n + 1 => .ref base :: refsFrom (base + 1) n

/-- The text `needle` occurs in `hay` as a contiguous run of characters. -/
def isSubstring (needle hay : String) : Prop := needle.data <:+: hay.data

/-- A native call that does not return, whatever bound is put on the depth of its nested
calls. -/
def NeverReturns {α : Type} (run : Nat → Except Fault α) : Prop :=
  ∀ fuel, run fuel = .error .diverges

/-! ## Sample states -/

/-- A runtime that resolves the exception classes and the two managed types of the bridge. -/
def sampleEnv : JNIEnv :=
  { classes := [jni.RuntimeException, jni.ClassNotFoundException, jni.NoSuchMethodException,
                jni.ArrayList, jni.NNLayer],
    methods := [⟨jni.ArrayList, "<init>", "()V"⟩,
                ⟨jni.ArrayList, "add", "(Ljava/lang/Object;)Z"⟩,
                ⟨jni.NNLayer, "<init>", "(Ljava/lang/String;IIIIII)V"⟩],
    nextGlobal := 0, heap := [], pending := none, trace := [] }

/-- A runtime from which the bridge's managed types are missing. -/
def bareEnv : JNIEnv :=
  { classes := [jni.RuntimeException, jni.ClassNotFoundException],
    methods := [], nextGlobal := 0, heap := [], pending := none, trace := [] }

def sampleInput : NNLayer :=
  { _name := "input", _kind := 0, _attributes := 1, _numDimensions := 1,
    _Nx := 128, _Ny := 1, _Nz := 1, _Nw := 1 }

def sampleOutput : NNLayer :=
  { _name := "output", _kind := 2, _attributes := 0, _numDimensions := 1,
    _Nx := 64, _Ny := 1, _Nz := 1, _Nw := 1 }

def sampleNetwork : NNNetwork :=
  { _name := "net", _vLayer := [sampleInput, sampleOutput] }

/-- A message with a NUL character in the middle. -/
def nulMessage : String := String.mk ['a', Char.ofNat 0, 'b']

/-- An exception kind with a NUL character in the middle. -/
def nulKind : String := String.mk ['n', 'o', Char.ofNat 0, 'p', 'e']

/-- A layer whose name holds a NUL and whose attributes and first dimension need the top
bit of a `uint32_t`. -/
def wideLayer : NNLayer :=
  { _name := String.mk ['i', 'n', Char.ofNat 0, 'p', 'u', 't'], _kind := 0,
    _attributes := 2147483648, _numDimensions := 1,
    _Nx := 4294967295, _Ny := 1, _Nz := 1, _Nw := 1 }

def wideNetwork : NNNetwork :=
  { _name := "wide", _vLayer := [wideLayer] }

/-- A runtime that resolves no class at all. -/
def emptyEnv : JNIEnv :=
  { classes := [], methods := [], nextGlobal := 0, heap := [], pending := none, trace := [] }

/-- An engine whose loader parses `model.nc` only. -/
def sampleEngine : Engine :=
  { loadNetwork := fun path _ => if path = "model.nc" then some sampleNetwork else none,
    _sKindMap := fun k =>
      if k = 0 then "Input" else if k = 1 then "Hidden" else if k = 2 then "Output"
      else if k = 3 then "Target" else "",
    gpuAddress := 4096,
    gpuAddress_ne_zero := by decide }

/-- The process before attach: empty registry, nothing resolved, no network bound. -/
def freshWorld : World :=
  { env := sampleEnv, REFS := { classGlobalRefs := [] }, java_ArrayList_ := none,
    java_ArrayList_add := none, dsstne_NNLayer_ := none,
    gpu := { _pNetwork := none, calls := [] } }

/-- The process after attach and a successful load of `sampleNetwork`. -/
def loadedWorld : World :=
  { env := { sampleEnv with nextGlobal := 2 },
    REFS := { classGlobalRefs := [(jni.NNLayer, .globalRef 1 jni.NNLayer),
                                  (jni.ArrayList, .globalRef 0 jni.ArrayList)] },
    java_ArrayList_ := some ⟨jni.ArrayList, "<init>", "()V"⟩,
    java_ArrayList_add := some ⟨jni.ArrayList, "add", "(Ljava/lang/Object;)Z"⟩,
    dsstne_NNLayer_ := some ⟨jni.NNLayer, "<init>", "(Ljava/lang/String;IIIIII)V"⟩,
    gpu := { _pNetwork := some sampleNetwork, calls := [] } }

/-- The process after attach, with `wideNetwork` bound. -/
def wideWorld : World :=
  { loadedWorld with gpu := { _pNetwork := some wideNetwork, calls := [] } }

/-! ## Basic facts about the runtime model -/

@[simp] theorem JNIEnv.record_trace (env : JNIEnv) (c : JniCall) :
    (env.record c).trace = env.trace ++ [c] := rfl

@[simp] theorem JNIEnv.record_heap (env : JNIEnv) (c : JniCall) :
    (env.record c).heap = env.heap := rfl

@[simp] theorem JNIEnv.record_pending (env : JNIEnv) (c : JniCall) :
    (env.record c).pending = env.pending := rfl

@[simp] theorem JNIEnv.record_classes (env : JNIEnv) (c : JniCall) :
    (env.record c).classes = env.classes := rfl

@[simp] theorem JNIEnv.record_methods (env : JNIEnv) (c : JniCall) :
    (env.record c).methods = env.methods := rfl

@[simp] theorem JNIEnv.record_nextGlobal (env : JNIEnv) (c : JniCall) :
    (env.record c).nextGlobal = env.nextGlobal := rfl

/-! ## Exception translation -/

/-- A text without NUL goes through `c_str` unchanged. -/
theorem c_str_eq_self (s : String) (h : nulFree s) : c_str s = s := by
  cases s with
  | mk d =>
    have hd : List.takeWhile (fun c => decide (c ≠ Char.ofNat 0)) d = d := by
      rw [List.takeWhile_eq_self_iff]
      intro x hx
      simp only [ne_eq, decide_not, Bool.not_eq_eq_eq_not, Bool.not_true,
        decide_eq_false_iff_not]
      rintro rfl
      exact h hx
    simp only [c_str, hd]

theorem nulFree_append (a b : String) : nulFree (a ++ b) ↔ nulFree a ∧ nulFree b := by
  simp [nulFree, String.data_append, not_or]

/-- A text holding a NUL does not occur inside a text without one. -/
theorem not_isSubstring_of_nul (needle hay : String) (h1 : ¬ nulFree needle)
    (h2 : nulFree hay) : ¬ isSubstring needle hay := by
  rintro ⟨pre, post, h⟩
  apply h1
  intro hmem
  apply h2
  rw [← h]
  simp [hmem]

theorem toJint_of_range (z : Int) (h1 : -2147483648 ≤ z) (h2 : z < 2147483648) :
    toJint z = z := by
  unfold toJint
  omega

theorem toJint_toJint (z : Int) : toJint (toJint z) = toJint z := by
  unfold toJint
  omega

theorem toJint_emod (z : Int) : toJint (z % 4294967296) = toJint z := by
  unfold toJint
  omega

/-- The const-reference overload never reaches `ThrowNew`: every bound on the nesting depth
is used up by the call to itself. -/
theorem jni.throwJavaException_const_diverges (fuel : Nat) (env : JNIEnv)
    (exceptionType msg : String) :
    jni.throwJavaException_const fuel env exceptionType msg = .error .diverges := by
  induction fuel generalizing msg with
  | zero => rfl
  | succ n ih => simpa [jni.throwJavaException_const] using ih (c_str msg)

/-- The first overload (lines 74-87), on a kind the runtime resolves: one lookup, one
`ThrowNew`, and the throwable of that kind with that message (as C strings) is pending. -/
theorem jni.throwJavaException_resolved (env : JNIEnv) (exceptionType msg : String)
    (h : c_str exceptionType ∈ env.classes) :
    jni.throwJavaException env exceptionType msg =
      { env with
        pending := some (.localRef (c_str exceptionType), c_str msg),
        trace := env.trace ++ [.FindClass (c_str exceptionType),
                               .ThrowNew (.localRef (c_str exceptionType)) (c_str msg)] } := by
  simp [jni.throwJavaException, JNIEnv.FindClass, JNIEnv.ThrowNew, JNIEnv.record, h]

/-- C9, on the code: the overload of `throwJavaException` taking const references, the one
every failure path of the bridge calls, does not terminate.  For every exception kind
(resolved by the runtime or not) and every message the call never returns, so no throwable
is ever left pending by it. -/
theorem throwJavaException_const_never_returns (env : JNIEnv) (exceptionType msg : String) :
    NeverReturns (fun fuel => jni.throwJavaException_const fuel env exceptionType msg) :=
  fun fuel => jni.throwJavaException_const_diverges fuel env exceptionType msg

/-- C7 as amended: for an exception kind and a message without NUL characters, when the
runtime cannot resolve the kind and does resolve `java/lang/ClassNotFoundException`,
`throwJavaException` (lines 74-87) leaves a `ClassNotFoundException` pending whose message
contains the original kind and the original message. -/
theorem throwJavaException_substitutes_ClassNotFound (env : JNIEnv)
    (exceptionType msg : String)
    (hkind : nulFree exceptionType) (hmsg : nulFree msg)
    (hmiss : exceptionType ∉ env.classes)
    (hcnf : jni.ClassNotFoundException ∈ env.classes) :
    ∃ message,
      (jni.throwJavaException env exceptionType msg).pending
        = some (.localRef jni.ClassNotFoundException, message)
      ∧ isSubstring exceptionType message ∧ isSubstring msg message := by
  have hk : c_str exceptionType = exceptionType := c_str_eq_self _ hkind
  have hc : c_str jni.ClassNotFoundException = jni.ClassNotFoundException :=
    c_str_eq_self _ (by unfold nulFree; decide)
  have hm : c_str ("Cannot throw " ++ exceptionType ++ ":" ++ msg ++ "." ++ exceptionType
      ++ " does not exist.")
      = "Cannot throw " ++ exceptionType ++ ":" ++ msg ++ "." ++ exceptionType
      ++ " does not exist." := by
    apply c_str_eq_self
    simp only [nulFree_append]
    refine ⟨⟨⟨⟨⟨⟨?_, hkind⟩, ?_⟩, hmsg⟩, ?_⟩, hkind⟩, ?_⟩ <;> (unfold nulFree; decide)
  refine ⟨"Cannot throw " ++ exceptionType ++ ":" ++ msg ++ "." ++ exceptionType
      ++ " does not exist.", ?_, ?_, ?_⟩
  · simp only [jni.throwJavaException, hk, hc, hm]
    simp [JNIEnv.FindClass, JNIEnv.ThrowNew, JNIEnv.record, hmiss, hcnf]
  · refine ⟨"Cannot throw ".data,
      (":" ++ msg ++ "." ++ exceptionType ++ " does not exist.").data, ?_⟩
    simp [String.data_append, List.append_assoc]
  · refine ⟨("Cannot throw " ++ exceptionType ++ ":").data,
      ("." ++ exceptionType ++ " does not exist.").data, ?_⟩
    simp [String.data_append, List.append_assoc]

/-- C7 as amended, at a concrete input: `com/example/Missing` is unknown to `sampleEnv`. -/
theorem throwJavaException_substitutes_ClassNotFound_witness :
    ∃ message,
      (jni.throwJavaException sampleEnv "com/example/Missing" "boom").pending
        = some (.localRef jni.ClassNotFoundException, message)
      ∧ isSubstring "com/example/Missing" message ∧ isSubstring "boom" message :=
  throwJavaException_substitutes_ClassNotFound sampleEnv "com/example/Missing" "boom"
    (by unfold nulFree; decide) (by unfold nulFree; decide) (by decide) (by decide)

/-- C7 fails as stated, three times over.  A message holding a NUL is cut there by
`message.c_str()`, so the raised text does not contain it; an unresolvable kind holding a
NUL is cut the same way; and in a runtime that does not resolve
`java/lang/ClassNotFoundException` either, `ThrowNew` gets a null class and nothing is
raised. -/
theorem throwJavaException_substitutes_ClassNotFound_counterexample :
    ((jni.throwJavaException sampleEnv "com/example/Missing" nulMessage).pending
        = some (.localRef jni.ClassNotFoundException, "Cannot throw com/example/Missing:a")
      ∧ ¬ isSubstring nulMessage "Cannot throw com/example/Missing:a")
    ∧ ((jni.throwJavaException sampleEnv nulKind "boom").pending
        = some (.localRef jni.ClassNotFoundException, "Cannot throw no")
      ∧ ¬ isSubstring nulKind "Cannot throw no")
    ∧ ("com/example/Missing" ∉ emptyEnv.classes
      ∧ (jni.throwJavaException emptyEnv "com/example/Missing" "boom").pending = none) := by
  refine ⟨⟨by decide, ?_⟩, ⟨by decide, ?_⟩, by decide, by decide⟩
  · exact not_isSubstring_of_nul _ _ (by unfold nulFree; decide) (by unfold nulFree; decide)
  · exact not_isSubstring_of_nul _ _ (by unfold nulFree; decide) (by unfold nulFree; decide)

/-! ## The reference registry -/

theorem jni.mapFind_mapPut (m : List (String × jclass)) (key : String) (v : jclass) :
    jni.mapFind (jni.mapPut m key v) key = some v := by
  induction m with
  | nil => simp [jni.mapPut, jni.mapFind]
  | cons e rest ih =>
    obtain ⟨k, v0⟩ := e
    by_cases h1 : key = k
    · simp [jni.mapPut, jni.mapFind, h1]
    · by_cases h2 : key.data < k.data
      · simp [jni.mapPut, jni.mapFind, h1, h2]
      · simp [jni.mapPut, jni.mapFind, h1, h2, ih]

theorem jni.deleteReferences_fold (l : List (String × jclass)) (env : JNIEnv) :
    l.foldl (fun e entry => e.DeleteGlobalRef entry.2) env =
      { env with trace := env.trace ++ l.map (fun entry => JniCall.DeleteGlobalRef entry.2) } := by
  induction l generalizing env with
  | nil => simp
  | cons e rest ih =>
    rw [List.foldl_cons, ih]
    simp [JNIEnv.DeleteGlobalRef, JNIEnv.record]

/-- C5: `deleteReferences` issues exactly one `DeleteGlobalRef` per registered handle (the
calls it adds to the trace are the registry's entries, one call each, and nothing else),
it leaves the registry empty, and a second `deleteReferences` right after changes nothing:
it issues no call at all, so no handle is released twice. -/
theorem deleteReferences_releases_each_handle_once (env : JNIEnv) (refs : jni.References) :
    (jni.deleteReferences env refs).1 =
        { env with trace := env.trace
            ++ refs.classGlobalRefs.map (fun entry => JniCall.DeleteGlobalRef entry.2) }
    ∧ (jni.deleteReferences env refs).2.classGlobalRefs = []
    ∧ jni.deleteReferences (jni.deleteReferences env refs).1 (jni.deleteReferences env refs).2
        = jni.deleteReferences env refs := by
  refine ⟨?_, rfl, ?_⟩
  · simp [jni.deleteReferences, jni.deleteReferences_fold]
  · simp [jni.deleteReferences]

/-- What `findClassGlobalRef` returns for a name that is already registered. -/
theorem jni.findClassGlobalRef_cached (raise : Thrower) (env : JNIEnv) (refs : jni.References)
    (className : String) (c : jclass) (h : jni.mapFind refs.classGlobalRefs className = some c) :
    jni.findClassGlobalRef raise env refs className = .ok (env, refs, c) := by
  simp [jni.findClassGlobalRef, jni.References.containsClassGlobalRef,
    jni.References.getClassGlobalRef, h]

/-- What `findClassGlobalRef` does for an unregistered name the runtime resolves. -/
theorem jni.findClassGlobalRef_resolved (raise : Thrower) (env : JNIEnv)
    (refs : jni.References) (className : String)
    (hreg : jni.mapFind refs.classGlobalRefs className = none)
    (hcls : className ∈ env.classes) :
    jni.findClassGlobalRef raise env refs className =
      .ok ({ env with
               nextGlobal := env.nextGlobal + 1,
               trace := env.trace ++ [.FindClass className,
                                      .NewGlobalRef (.localRef className),
                                      .DeleteLocalRef (.localRef className)] },
           refs.putClassGlobalRef className (.globalRef env.nextGlobal className),
           .globalRef env.nextGlobal className) := by
  simp [jni.findClassGlobalRef, jni.References.containsClassGlobalRef, hreg, hcls,
    JNIEnv.FindClass, JNIEnv.NewGlobalRef, JNIEnv.DeleteLocalRef, JNIEnv.record,
    jclass.className]

/-- What `findClassGlobalRef` does for an unregistered name the runtime cannot resolve,
once the throw has returned: it goes on to pin and register the null reference. -/
theorem jni.findClassGlobalRef_unresolved (raise : Thrower) (env env1 : JNIEnv)
    (refs : jni.References) (className : String)
    (hreg : jni.mapFind refs.classGlobalRefs className = none)
    (hcls : className ∉ env.classes)
    (hraise : raise (env.FindClass className).1 jni.ClassNotFoundException className
      = .ok env1) :
    jni.findClassGlobalRef raise env refs className =
      .ok ({ env1 with trace := env1.trace ++ [.NewGlobalRef .null, .DeleteLocalRef .null] },
           refs.putClassGlobalRef className .null, .null) := by
  have h2 : (env.FindClass className).2 = .null := by simp [JNIEnv.FindClass, hcls]
  simp [jni.findClassGlobalRef, jni.References.containsClassGlobalRef, hreg, h2, hraise,
    JNIEnv.NewGlobalRef, JNIEnv.DeleteLocalRef, JNIEnv.record, jclass.className]

/-- As written, `findClassGlobalRef` never returns for a name that is neither registered
nor resolvable: its throw is the const overload. -/
theorem jni.findClassGlobalRef_unresolved_diverges (env : JNIEnv) (refs : jni.References)
    (className : String)
    (hreg : jni.mapFind refs.classGlobalRefs className = none)
    (hcls : className ∉ env.classes) (fuel : Nat) :
    jni.findClassGlobalRef (jni.throwJavaException_const fuel) env refs className
      = .error .diverges := by
  have h2 : (env.FindClass className).2 = .null := by simp [JNIEnv.FindClass, hcls]
  simp [jni.findClassGlobalRef, jni.References.containsClassGlobalRef, hreg, h2,
    jni.throwJavaException_const_diverges]

/-- Whenever a first `findClassGlobalRef` returns, a second one with the same name returns
the identical handle and leaves the runtime (trace included) and the registry as the first
call left them. -/
theorem jni.findClassGlobalRef_again (raise : Thrower) (env env1 : JNIEnv)
    (refs refs1 : jni.References) (className : String) (c : jclass)
    (h : jni.findClassGlobalRef raise env refs className = .ok (env1, refs1, c)) :
    jni.findClassGlobalRef raise env1 refs1 className = .ok (env1, refs1, c) := by
  cases hreg : jni.mapFind refs.classGlobalRefs className with
  | some c0 =>
    rw [jni.findClassGlobalRef_cached raise env refs className c0 hreg] at h
    simp only [Except.ok.injEq, Prod.mk.injEq] at h
    obtain ⟨rfl, rfl, rfl⟩ := h
    exact jni.findClassGlobalRef_cached raise env refs className c0 hreg
  | none =>
    by_cases hcls : className ∈ env.classes
    · rw [jni.findClassGlobalRef_resolved raise env refs className hreg hcls] at h
      simp only [Except.ok.injEq, Prod.mk.injEq] at h
      obtain ⟨rfl, rfl, rfl⟩ := h
      apply jni.findClassGlobalRef_cached
      simp [jni.References.putClassGlobalRef, jni.mapFind_mapPut]
    · cases hr : raise (env.FindClass className).1 jni.ClassNotFoundException className with
      | error f =>
        have h2 : (env.FindClass className).2 = .null := by simp [JNIEnv.FindClass, hcls]
        simp [jni.findClassGlobalRef, jni.References.containsClassGlobalRef, hreg, h2, hr]
          at h
      | ok e1 =>
        rw [jni.findClassGlobalRef_unresolved raise env e1 refs className hreg hcls hr] at h
        simp only [Except.ok.injEq, Prod.mk.injEq] at h
        obtain ⟨rfl, rfl, rfl⟩ := h
        apply jni.findClassGlobalRef_cached
        simp [jni.References.putClassGlobalRef, jni.mapFind_mapPut]

/-- C4 as amended: for every registry, runtime and type name such that the name is
registered or the runtime resolves it, a first `findClassGlobalRef` returns a handle, and
a second one with the same name returns the identical handle, calls nothing in the runtime
(the runtime state, trace included, is the one the first call left) and leaves the
registry exactly as the first call left it.  This holds for every callee of the throw, so
for the code as written. -/
theorem findClassGlobalRef_twice (raise : Thrower) (env : JNIEnv) (refs : jni.References)
    (className : String)
    (h : jni.mapFind refs.classGlobalRefs className ≠ none ∨ className ∈ env.classes) :
    ∃ env1 refs1 c,
      jni.findClassGlobalRef raise env refs className = .ok (env1, refs1, c)
      ∧ jni.findClassGlobalRef raise env1 refs1 className = .ok (env1, refs1, c) := by
  have hfirst : ∃ r, jni.findClassGlobalRef raise env refs className = .ok r := by
    cases hreg : jni.mapFind refs.classGlobalRefs className with
    | some c0 => exact ⟨_, jni.findClassGlobalRef_cached raise env refs className c0 hreg⟩
    | none =>
      have hcls : className ∈ env.classes := by
        rcases h with h | h
        · exact absurd hreg h
        · exact h
      exact ⟨_, jni.findClassGlobalRef_resolved raise env refs className hreg hcls⟩
  obtain ⟨⟨env1, refs1, c⟩, hr⟩ := hfirst
  exact ⟨env1, refs1, c, hr, jni.findClassGlobalRef_again raise env env1 refs refs1 className c hr⟩

/-- C4 as amended, at a concrete input: the empty registry, `sampleEnv`, and
`com/amazon/dsstne/NNLayer`, with the code as written. -/
theorem findClassGlobalRef_twice_witness :
    ∃ env1 refs1 c,
      jni.findClassGlobalRef (jni.throwJavaException_const 0) sampleEnv
          { classGlobalRefs := [] } jni.NNLayer = .ok (env1, refs1, c)
      ∧ jni.findClassGlobalRef (jni.throwJavaException_const 0) env1 refs1 jni.NNLayer
          = .ok (env1, refs1, c) :=
  findClassGlobalRef_twice (jni.throwJavaException_const 0) sampleEnv { classGlobalRefs := [] }
    jni.NNLayer (Or.inr (by decide))

/-- C4 fails as stated: with the empty registry and a runtime without
`com/amazon/dsstne/NNLayer`, the first resolution of that name never returns, within any
bound, so there is no handle for a second call to repeat. -/
theorem findClassGlobalRef_twice_counterexample :
    NeverReturns
        (fun fuel => jni.findClassGlobalRef (jni.throwJavaException_const fuel) bareEnv
          { classGlobalRefs := [] } jni.NNLayer)
    ∧ ¬ ∃ fuel r,
        jni.findClassGlobalRef (jni.throwJavaException_const fuel) bareEnv
          { classGlobalRefs := [] } jni.NNLayer = .ok r := by
  have hd := jni.findClassGlobalRef_unresolved_diverges bareEnv { classGlobalRefs := [] }
    jni.NNLayer rfl (by decide)
  refine ⟨hd, ?_⟩
  rintro ⟨fuel, r, hr⟩
  rw [hd fuel] at hr
  cases hr

/-! ## The boundary operations -/

/-- C1, on the code: `shutdown` with the null handle, in every state.  As written the call
never returns: `checkPtr` throws through the const overload, so no `RuntimeException`
becomes pending.  And whatever callee the throw reaches, once it has returned `checkPtr`
hands back the null pointer and line 111 invokes `Shutdown` through it: the call does not
end with the engine untouched and an exception reported, it ends in a null dereference. -/
theorem shutdown_null_handle (w : World) :
    NeverReturns
        (fun fuel => Java_com_amazon_dsstne_Dsstne_shutdown (jni.throwJavaException_const fuel) w 0)
    ∧ ∀ (raise : Thrower) (env1 : JNIEnv),
        raise w.env jni.RuntimeException
            "GpuContext pointer is null, call init prior to any other functions" = .ok env1 →
        Java_com_amazon_dsstne_Dsstne_shutdown raise w 0 = .error .null_dereference := by
  constructor
  · intro fuel
    simp [Java_com_amazon_dsstne_Dsstne_shutdown, checkPtr,
      jni.throwJavaException_const_diverges]
  · intro raise env1 h
    simp [Java_com_amazon_dsstne_Dsstne_shutdown, checkPtr, h]

/-- C8 fails on the code: with a loader that returns no network for `missing.nc`, `load`
raises nothing, does invoke `SetNeuralNetwork` (with the null network) and returns a
non-null handle. -/
theorem load_unparseable_model_counterexample :
    sampleEngine.loadNetwork "missing.nc" 32 = none
    ∧ (Java_com_amazon_dsstne_Dsstne_load sampleEngine freshWorld "missing.nc" 32).1.env.pending
        = none
    ∧ EngineCall.SetNeuralNetwork none
        ∈ (Java_com_amazon_dsstne_Dsstne_load sampleEngine freshWorld "missing.nc" 32).1.gpu.calls
    ∧ (Java_com_amazon_dsstne_Dsstne_load sampleEngine freshWorld "missing.nc" 32).2 ≠ 0 := by
  refine ⟨by decide, rfl, ?_, by decide⟩
  decide

/-- C8 as amended: when the loader returns no network, `load` contains no failure path: it
raises no exception (the pending throwable is whatever it was), it performs the same
engine calls as on success, `SetNeuralNetwork` included, which binds the null network, and
it returns the non-null address of the process-global context. -/
theorem load_unparseable_model (eng : Engine) (w : World) (path : String) (batchSize : Int)
    (h : eng.loadNetwork path batchSize = none) :
    (Java_com_amazon_dsstne_Dsstne_load eng w path batchSize).1.env.pending = w.env.pending
    ∧ (Java_com_amazon_dsstne_Dsstne_load eng w path batchSize).1.gpu.calls
        = w.gpu.calls ++ [.Startup ARGC ARGV, .SetRandomSeed SEED,
                          .LoadNeuralNetworkNetCDF path batchSize, .SetNeuralNetwork none]
    ∧ (Java_com_amazon_dsstne_Dsstne_load eng w path batchSize).1.gpu._pNetwork = none
    ∧ (Java_com_amazon_dsstne_Dsstne_load eng w path batchSize).2 = eng.gpuAddress
    ∧ (Java_com_amazon_dsstne_Dsstne_load eng w path batchSize).2 ≠ 0 := by
  refine ⟨rfl, ?_, ?_, rfl, eng.gpuAddress_ne_zero⟩
  · simp [Java_com_amazon_dsstne_Dsstne_load, LoadNeuralNetworkNetCDF, GpuContext.Startup,
      GpuContext.SetRandomSeed, GpuContext.SetNeuralNetwork, JNIEnv.GetStringUTFChars, h]
  · simp [Java_com_amazon_dsstne_Dsstne_load, LoadNeuralNetworkNetCDF, GpuContext.Startup,
      GpuContext.SetRandomSeed, GpuContext.SetNeuralNetwork, JNIEnv.GetStringUTFChars, h]

/-- C8 as amended, at a concrete input. -/
theorem load_unparseable_model_witness :
    (Java_com_amazon_dsstne_Dsstne_load sampleEngine freshWorld "missing.nc" 32).1.env.pending
        = freshWorld.env.pending
    ∧ (Java_com_amazon_dsstne_Dsstne_load sampleEngine freshWorld "missing.nc" 32).1.gpu.calls
        = freshWorld.gpu.calls ++ [.Startup ARGC ARGV, .SetRandomSeed SEED,
                          .LoadNeuralNetworkNetCDF "missing.nc" 32, .SetNeuralNetwork none]
    ∧ (Java_com_amazon_dsstne_Dsstne_load sampleEngine freshWorld "missing.nc" 32).1.gpu._pNetwork
        = none
    ∧ (Java_com_amazon_dsstne_Dsstne_load sampleEngine freshWorld "missing.nc" 32).2
        = sampleEngine.gpuAddress
    ∧ (Java_com_amazon_dsstne_Dsstne_load sampleEngine freshWorld "missing.nc" 32).2 ≠ 0 :=
  load_unparseable_model sampleEngine freshWorld "missing.nc" 32 (by decide)

/-! ## Object construction and the layer loop -/

/-- What `newObject` does when the class is registered under a reference to `cls` and the
handle is a constructor of `cls`: one `NewObjectV`, a fresh object, no throw. -/
theorem jni.newObject_ok (raise : Thrower) (env : JNIEnv) (refs : jni.References)
    (className cls descriptor : String) (c : jclass) (args : List JArg)
    (hreg : jni.mapFind refs.classGlobalRefs className = some c)
    (hc : c.className = some cls) :
    jni.newObject raise env refs className (some ⟨cls, "<init>", descriptor⟩) args =
      .ok ({ env with
               heap := env.heap ++ [{ cls := cls, ctorArgs := args, elements := [] }],
               trace := env.trace ++ [.NewObjectV c (some ⟨cls, "<init>", descriptor⟩) args] },
           .ref env.heap.length) := by
  simp [jni.newObject, jni.References.getClassGlobalRef, hreg, JNIEnv.NewObjectV, hc,
    jni.CONSTRUCTOR_METHOD_NAME, JNIEnv.record]

theorem getElem?_length_append_cons {α : Type} (pre : List α) (x : α) (ds : List α) :
    (pre ++ x :: ds)[pre.length]? = some x := by
  induction pre <;> simp_all

/-- What `add` does to a list object sitting in the heap right after `pre`. -/
theorem JNIEnv.CallBooleanMethod_add (env : JNIEnv) (pre ds : List JObject)
    (els : List jobject) (arg : jobject)
    (h : env.heap = pre ++ ({ cls := jni.ArrayList, ctorArgs := [], elements := els } :: ds)) :
    env.CallBooleanMethod (.ref pre.length)
        (some ⟨jni.ArrayList, "add", "(Ljava/lang/Object;)Z"⟩) arg =
      { env with
        heap := pre ++ ({ cls := jni.ArrayList, ctorArgs := [], elements := els ++ [arg] } :: ds),
        trace := env.trace ++ [.CallBooleanMethod (.ref pre.length)
                  (some ⟨jni.ArrayList, "add", "(Ljava/lang/Object;)Z"⟩) arg] } := by
  simp only [JNIEnv.CallBooleanMethod, h, getElem?_length_append_cons]
  simp [JNIEnv.record]

theorem get_1layers_loop_spec (raise : Thrower) (refs : jni.References) (cN cA : jclass)
    (hN : jni.mapFind refs.classGlobalRefs jni.NNLayer = some cN)
    (hNc : cN.className = some jni.NNLayer)
    (hA : jni.mapFind refs.classGlobalRefs jni.ArrayList = some cA)
    (rest : List NNLayer) :
    ∀ (env : JNIEnv) (pre ds : List JObject) (els : List jobject),
      env.heap = pre ++ ({ cls := jni.ArrayList, ctorArgs := [], elements := els } :: ds) →
      ∃ env1,
        get_1layers_loop raise refs (some ⟨jni.NNLayer, "<init>", "(Ljava/lang/String;IIIIII)V"⟩)
          (some ⟨jni.ArrayList, "add", "(Ljava/lang/Object;)Z"⟩) (.ref pre.length) env rest
          = .ok env1
        ∧ env1.heap = pre ++
            ({ cls := jni.ArrayList, ctorArgs := [],
               elements := els ++ refsFrom (pre.length + 1 + ds.length) rest.length }
              :: (ds ++ rest.map layerCell))
        ∧ env1.pending = env.pending := by
  induction rest with
  | nil =>
    intro env pre ds els h
    exact ⟨env, rfl, by simp [refsFrom, h], rfl⟩
  | cons l rest ih =>
    intro env pre ds els h
    have hlen : env.heap.length = pre.length + 1 + ds.length := by
      simp [h]; omega
    obtain ⟨env1, hrun, hheap, hpend⟩ :=
      ih ({ env with
            heap := pre ++ ({ cls := jni.ArrayList, ctorArgs := [],
                              elements := els ++ [.ref (pre.length + 1 + ds.length)] }
                            :: (ds ++ [layerCell l])),
            trace := env.trace ++ [.NewStringUTF (c_str l._name),
              .NewObjectV cN (some ⟨jni.NNLayer, "<init>", "(Ljava/lang/String;IIIIII)V"⟩)
                (layerCell l).ctorArgs,
              .CallBooleanMethod (.ref pre.length)
                (some ⟨jni.ArrayList, "add", "(Ljava/lang/Object;)Z"⟩)
                (.ref (pre.length + 1 + ds.length))] })
        pre (ds ++ [layerCell l]) (els ++ [.ref (pre.length + 1 + ds.length)]) rfl
    refine ⟨env1, ?_, ?_, ?_⟩
    · rw [← hrun]
      rw [get_1layers_loop]
      simp only [JNIEnv.NewStringUTF, NNLayer.GetName, NNLayer.GetKind, NNLayer.GetAttributes,
        NNLayer.GetNumDimensions, NNLayer.GetDimensions]
      rw [jni.newObject_ok raise _ refs jni.NNLayer jni.NNLayer _ cN _ hN hNc]
      simp only [jni.References.getClassGlobalRef, hA]
      rw [JNIEnv.CallBooleanMethod_add _ pre (ds ++ [layerCell l]) els _
        (by simp [h, layerCell])]
      simp [JNIEnv.record, hlen, layerCell]
    · rw [hheap]
      simp [refsFrom, List.length_append, Nat.add_assoc]
    · rw [hpend]

theorem readDescriptors_refsFrom (ls : List NNLayer) :
    ∀ pre : List JObject,
      readDescriptors (pre ++ ls.map layerCell) (refsFrom pre.length ls.length)
        = some (ls.map LayerDescriptor.ofLayer) := by
  induction ls with
  | nil => intro pre; simp [refsFrom, readDescriptors]
  | cons l rest ih =>
    intro pre
    have h := ih (pre ++ [layerCell l])
    simp only [List.length_append, List.length_singleton, List.append_assoc,
      List.singleton_append] at h
    simp only [refsFrom, readDescriptors, readDescriptor, List.map_cons, List.length_cons,
      getElem?_length_append_cons, h]
    simp [layerCell, LayerDescriptor.ofLayer, toJint_toJint, toJint_emod]

/-- A layer that fits the Java side is marshalled unchanged. -/
theorem LayerDescriptor.ofLayer_eq_unchanged (l : NNLayer) (h : l.fitsJava) :
    LayerDescriptor.ofLayer l = LayerDescriptor.unchanged l := by
  simp only [LayerDescriptor.ofLayer, LayerDescriptor.unchanged, c_str_eq_self _ h.name,
    toJint_of_range _ h.kind_lower h.kind_upper]
  have h1 := h.attributes
  have h2 := h.numDimensions
  have h3 := h.nx
  have h4 := h.ny
  have h5 := h.nz
  rw [toJint_of_range _ (by omega) (by omega), toJint_of_range _ (by omega) (by omega),
    toJint_of_range _ (by omega) (by omega), toJint_of_range _ (by omega) (by omega),
    toJint_of_range _ (by omega) (by omega)]

/-- C3 as amended: for a non-null handle, a bound network and a kind filter with a
non-empty sequence of matching layers, and with the registry and constructors as attach
leaves them, `get_layers` returns (for every callee of its throws, none is reached), raises
nothing, and the object it returns is a list of exactly one descriptor per matching layer,
in the engine's order.  Each descriptor carries the layer's name cut at its first NUL and
its kind, attributes, numDimensions, dimX, dimY and dimZ as the `jint` with the same 32
bits; for a layer whose name has no NUL and whose values fit a Java `int`, those are the
layer's fields unchanged. -/
theorem get_layers_returns_descriptors (raise : Thrower) (eng : Engine) (w : World)
    (ptr kindOrdinal : Int) (network : NNNetwork)
    (hptr : ptr ≠ 0) (hnet : w.gpu._pNetwork = some network)
    (hne : network.GetLayers kindOrdinal ≠ []) (hatt : Attached w) :
    ∃ w1 jLayers,
      Java_com_amazon_dsstne_Dsstne_get_1layers raise eng w ptr kindOrdinal = .ok (w1, jLayers)
      ∧ w1.env.pending = w.env.pending
      ∧ readCollection w1.env jLayers
          = some ((network.GetLayers kindOrdinal).map LayerDescriptor.ofLayer)
      ∧ ∀ l ∈ network.GetLayers kindOrdinal, l.fitsJava →
          LayerDescriptor.ofLayer l = LayerDescriptor.unchanged l := by
  obtain ⟨cA, hA, hAc⟩ := Option.bind_eq_some.mp hatt.arrayList
  obtain ⟨cN, hN, hNc⟩ := Option.bind_eq_some.mp hatt.nnLayer
  obtain ⟨env1, hrun, hheap, hpend⟩ :=
    get_1layers_loop_spec raise w.REFS cN cA hN hNc hA (network.GetLayers kindOrdinal)
      { w.env with
        heap := w.env.heap ++ [{ cls := jni.ArrayList, ctorArgs := [], elements := [] }],
        trace := w.env.trace ++ [.NewObjectV cA (some ⟨jni.ArrayList, "<init>", "()V"⟩) []] }
      w.env.heap [] [] rfl
  refine ⟨{ w with env := env1 }, .ref w.env.heap.length, ?_, ?_, ?_, ?_⟩
  · simp only [Java_com_amazon_dsstne_Dsstne_get_1layers, checkPtr, hptr, hnet, hne,
      if_false]
    rw [hatt.ctorArrayList,
      jni.newObject_ok raise w.env w.REFS jni.ArrayList jni.ArrayList "()V" cA [] hA hAc,
      hatt.ctorNNLayer, hatt.addArrayList]
    simp only [hrun]
  · simpa using hpend
  · have hread := readDescriptors_refsFrom (network.GetLayers kindOrdinal)
      (w.env.heap ++ [JObject.mk jni.ArrayList []
        (refsFrom (w.env.heap.length + 1) (network.GetLayers kindOrdinal).length)])
    simp only [List.length_append, List.length_singleton, List.append_assoc,
      List.singleton_append] at hread
    simp only [readCollection, hheap, getElem?_length_append_cons]
    simpa using hread
  · intro l _ hl
    exact LayerDescriptor.ofLayer_eq_unchanged l hl

/-- C3 as amended, at a concrete input: the attached process with `sampleNetwork` bound,
asked for its output layers. -/
theorem get_layers_returns_descriptors_witness :
    ∃ w1 jLayers,
      Java_com_amazon_dsstne_Dsstne_get_1layers (jni.throwJavaException_const 0) sampleEngine
          loadedWorld 4096 2 = .ok (w1, jLayers)
      ∧ w1.env.pending = loadedWorld.env.pending
      ∧ readCollection w1.env jLayers
          = some ((sampleNetwork.GetLayers 2).map LayerDescriptor.ofLayer)
      ∧ ∀ l ∈ sampleNetwork.GetLayers 2, l.fitsJava →
          LayerDescriptor.ofLayer l = LayerDescriptor.unchanged l :=
  get_layers_returns_descriptors (jni.throwJavaException_const 0) sampleEngine loadedWorld
    4096 2 sampleNetwork (by decide) rfl (by decide)
    ⟨by decide, by decide, rfl, rfl, rfl⟩

/-- C3 fails as stated: for `wideLayer`, named `in`, NUL, `put`, with attributes `2^31` and
first dimension `2^32 - 1`, the descriptor `get_layers` returns is named `in` and carries
the attributes `-2^31` and the dimension `-1`: not the layer's fields unchanged. -/
theorem get_layers_returns_descriptors_counterexample :
    (Java_com_amazon_dsstne_Dsstne_get_1layers (jni.throwJavaException_const 0) sampleEngine
        wideWorld 4096 0).toOption.bind (fun r => readCollection r.1.env r.2)
      = some [{ name := "in", kind := 0, attributes := -2147483648, numDimensions := 1,
                dimX := -1, dimY := 1, dimZ := 1 }]
    ∧ LayerDescriptor.unchanged wideLayer
      ≠ { name := "in", kind := 0, attributes := -2147483648, numDimensions := 1,
          dimX := -1, dimY := 1, dimZ := 1 } := by
  constructor <;> decide

/-- C2, on the code: for a non-null handle and a kind filter that matches no layer of the
bound network, `get_layers` as written never returns (its throw is the const overload), so
no exception becomes pending.  And whatever callee the throw reaches, once it has returned
the function does not return to the caller: with the registry as attach leaves it, it
goes on to call `NewObjectV`, builds an empty `java/util/ArrayList` and returns it. -/
theorem get_layers_no_matching_layer (eng : Engine) (w : World) (ptr kindOrdinal : Int)
    (network : NNNetwork)
    (hptr : ptr ≠ 0) (hnet : w.gpu._pNetwork = some network)
    (hnone : network.GetLayers kindOrdinal = []) :
    NeverReturns
        (fun fuel =>
          Java_com_amazon_dsstne_Dsstne_get_1layers (jni.throwJavaException_const fuel) eng w ptr
            kindOrdinal)
    ∧ (Attached w →
        ∀ (raise : Thrower) (env1 : JNIEnv),
          raise w.env jni.RuntimeException
              ("No layers of type " ++ eng._sKindMap kindOrdinal ++ " found in network: "
                ++ network.GetName) = .ok env1 →
          ∃ w1 jLayers c,
            Java_com_amazon_dsstne_Dsstne_get_1layers raise eng w ptr kindOrdinal
              = .ok (w1, jLayers)
            ∧ w1.env.trace = env1.trace ++ [.NewObjectV c w.java_ArrayList_ []]
            ∧ w1.env.pending = env1.pending
            ∧ readCollection w1.env jLayers = some []) := by
  constructor
  · intro fuel
    simp [Java_com_amazon_dsstne_Dsstne_get_1layers, checkPtr, hptr, hnet, hnone,
      jni.throwJavaException_const_diverges]
  · intro hatt raise env1 hraise
    obtain ⟨cA, hA, hAc⟩ := Option.bind_eq_some.mp hatt.arrayList
    refine ⟨{ w with env := { env1 with
        heap := env1.heap ++ [{ cls := jni.ArrayList, ctorArgs := [], elements := [] }],
        trace := env1.trace ++ [.NewObjectV cA (some ⟨jni.ArrayList, "<init>", "()V"⟩) []] } },
      .ref env1.heap.length, cA, ?_, ?_, rfl, ?_⟩
    · simp only [Java_com_amazon_dsstne_Dsstne_get_1layers, checkPtr, hptr, hnet, hnone,
        if_false, if_true, hraise]
      rw [hatt.ctorArrayList,
        jni.newObject_ok raise env1 w.REFS jni.ArrayList jni.ArrayList "()V" cA [] hA hAc]
      simp [get_1layers_loop]
    · simp [hatt.ctorArrayList]
    · have hget := getElem?_length_append_cons env1.heap
        ({ cls := jni.ArrayList, ctorArgs := [], elements := [] } : JObject) []
      simp only [readCollection, hget]
      simp [readDescriptors]

/-- C2 at a concrete input: the attached process with `sampleNetwork` bound (an input and
an output layer), asked for kind 1, of which it has none. -/
theorem get_layers_no_matching_layer_witness :
    NeverReturns
        (fun fuel =>
          Java_com_amazon_dsstne_Dsstne_get_1layers (jni.throwJavaException_const fuel)
            sampleEngine loadedWorld 4096 1)
    ∧ (Attached loadedWorld →
        ∀ (raise : Thrower) (env1 : JNIEnv),
          raise loadedWorld.env jni.RuntimeException
              ("No layers of type " ++ sampleEngine._sKindMap 1 ++ " found in network: "
                ++ sampleNetwork.GetName) = .ok env1 →
          ∃ w1 jLayers c,
            Java_com_amazon_dsstne_Dsstne_get_1layers raise sampleEngine loadedWorld 4096 1
              = .ok (w1, jLayers)
            ∧ w1.env.trace = env1.trace ++ [.NewObjectV c loadedWorld.java_ArrayList_ []]
            ∧ w1.env.pending = env1.pending
            ∧ readCollection w1.env jLayers = some []) :=
  get_layers_no_matching_layer sampleEngine loadedWorld 4096 1 sampleNetwork (by decide) rfl
    (by decide)

/-! ## Attach, and the registry lookups of `get_layers` -/

theorem jni.newObject_ne_out_of_range (raise : Thrower)
    (hraise : ∀ e t m, raise e t m ≠ .error .out_of_range)
    (env : JNIEnv) (refs : jni.References) (className : String) (ctor : jmethodID)
    (args : List JArg) (c : jclass)
    (hreg : jni.mapFind refs.classGlobalRefs className = some c) :
    jni.newObject raise env refs className ctor args ≠ .error .out_of_range := by
  simp only [jni.newObject, jni.References.getClassGlobalRef, hreg]
  split
  · cases h : raise (env.NewObjectV c ctor args).1 jni.RuntimeException
        ("Unable to create new object: " ++ className ++ "#" ++ jni.CONSTRUCTOR_METHOD_NAME) with
    | error f =>
      intro hf
      simp only [Except.error.injEq] at hf
      exact hraise _ _ _ (hf ▸ h)
    | ok e => simp
  · simp

theorem get_1layers_loop_ne_out_of_range (raise : Thrower)
    (hraise : ∀ e t m, raise e t m ≠ .error .out_of_range)
    (refs : jni.References) (ctor add : jmethodID) (jLayers : jobject) (cA cN : jclass)
    (hA : jni.mapFind refs.classGlobalRefs jni.ArrayList = some cA)
    (hN : jni.mapFind refs.classGlobalRefs jni.NNLayer = some cN)
    (layers : List NNLayer) :
    ∀ env : JNIEnv,
      get_1layers_loop raise refs ctor add jLayers env layers ≠ .error .out_of_range := by
  induction layers with
  | nil => intro env; simp [get_1layers_loop]
  | cons l rest ih =>
    intro env
    rw [get_1layers_loop]
    simp only []
    split
    · rename_i f hf
      intro h
      simp only [Except.error.injEq] at h
      exact jni.newObject_ne_out_of_range raise hraise _ refs jni.NNLayer ctor _ cN hN
        (h ▸ hf)
    · simp only [jni.References.getClassGlobalRef, hA]
      exact ih _

theorem get_1layers_ne_out_of_range (raise : Thrower)
    (hraise : ∀ e t m, raise e t m ≠ .error .out_of_range)
    (eng : Engine) (w : World) (ptr kindOrdinal : Int) (cA cN : jclass)
    (hA : jni.mapFind w.REFS.classGlobalRefs jni.ArrayList = some cA)
    (hN : jni.mapFind w.REFS.classGlobalRefs jni.NNLayer = some cN) :
    Java_com_amazon_dsstne_Dsstne_get_1layers raise eng w ptr kindOrdinal
      ≠ .error .out_of_range := by
  intro h
  simp only [Java_com_amazon_dsstne_Dsstne_get_1layers, checkPtr] at h
  split at h
  · rename_i f hf
    simp only [Except.error.injEq] at h
    subst h
    split at hf
    · split at hf
      · simp only [Except.error.injEq] at hf
        rename_i hr
        exact hraise _ _ _ (hf ▸ hr)
      · simp at hf
    · simp at hf
  · split at h
    · simp at h
    · split at h
      · simp at h
      · split at h
        · rename_i f hf
          simp only [Except.error.injEq] at h
          subst h
          split at hf
          · exact hraise _ _ _ hf
          · simp at hf
        · split at h
          · rename_i f hf
            simp only [Except.error.injEq] at h
            subst h
            exact jni.newObject_ne_out_of_range raise hraise _ w.REFS jni.ArrayList _ _ cA hA hf
          · split at h
            · rename_i f hf
              simp only [Except.error.injEq] at h
              subst h
              exact get_1layers_loop_ne_out_of_range raise hraise w.REFS _ _ _ cA cN hA hN _ _ hf
            · simp at h

/-- C10: from an empty registry, with `libmpi.so` loaded, `GetEnv` succeeding, and a runtime
in which both classes and the three callables resolve, `JNI_OnLoad` completes with
`JNI_VERSION_1_6`; the registry then holds exactly the keys `com/amazon/dsstne/NNLayer` and
`java/util/ArrayList`, each mapped to a non-null global reference from one `NewGlobalRef`
(the trace shows two `FindClass`, two `NewGlobalRef` and three `GetMethodID` calls).  In
every later state with this registry, for every handle and kind, `get_layers` never ends
in the `std::out_of_range` of `getClassGlobalRef`: each of its registry lookups finds its
key. -/
theorem JNI_OnLoad_registers_both_types (raise : Thrower) (w : World)
    (hempty : w.REFS.classGlobalRefs = [])
    (hAL : jni.ArrayList ∈ w.env.classes) (hNN : jni.NNLayer ∈ w.env.classes)
    (hm1 : MethodRef.mk jni.ArrayList "<init>" "()V" ∈ w.env.methods)
    (hm2 : MethodRef.mk jni.ArrayList "add" "(Ljava/lang/Object;)Z" ∈ w.env.methods)
    (hm3 : MethodRef.mk jni.NNLayer "<init>" "(Ljava/lang/String;IIIIII)V" ∈ w.env.methods) :
    ∃ w1,
      JNI_OnLoad raise true JNI_OK w = .ok (w1, JNI_VERSION_1_6)
      ∧ w1.REFS.classGlobalRefs =
          [(jni.NNLayer, .globalRef (w.env.nextGlobal + 1) jni.NNLayer),
           (jni.ArrayList, .globalRef w.env.nextGlobal jni.ArrayList)]
      ∧ w1.env.trace = w.env.trace ++
          [.FindClass jni.ArrayList,
           .NewGlobalRef (.localRef jni.ArrayList),
           .DeleteLocalRef (.localRef jni.ArrayList),
           .GetMethodID (.globalRef w.env.nextGlobal jni.ArrayList) "<init>" "()V",
           .GetMethodID (.globalRef w.env.nextGlobal jni.ArrayList) "add"
             "(Ljava/lang/Object;)Z",
           .FindClass jni.NNLayer,
           .NewGlobalRef (.localRef jni.NNLayer),
           .DeleteLocalRef (.localRef jni.NNLayer),
           .GetMethodID (.globalRef (w.env.nextGlobal + 1) jni.NNLayer) "<init>"
             "(Ljava/lang/String;IIIIII)V"]
      ∧ Attached w1
      ∧ ∀ (raise2 : Thrower) (eng : Engine) (w2 : World) (ptr kindOrdinal : Int),
          w2.REFS = w1.REFS →
          (∀ e t m, raise2 e t m ≠ .error .out_of_range) →
          Java_com_amazon_dsstne_Dsstne_get_1layers raise2 eng w2 ptr kindOrdinal
            ≠ .error .out_of_range := by
  have hne : jni.NNLayer ≠ jni.ArrayList := by decide
  have hne2 : jni.ArrayList ≠ jni.NNLayer := by decide
  have hlt : jni.NNLayer.data < jni.ArrayList.data := by decide
  refine ⟨{ w with
      env := { w.env with
        nextGlobal := w.env.nextGlobal + 2,
        trace := w.env.trace ++
          [.FindClass jni.ArrayList,
           .NewGlobalRef (.localRef jni.ArrayList),
           .DeleteLocalRef (.localRef jni.ArrayList),
           .GetMethodID (.globalRef w.env.nextGlobal jni.ArrayList) "<init>" "()V",
           .GetMethodID (.globalRef w.env.nextGlobal jni.ArrayList) "add"
             "(Ljava/lang/Object;)Z",
           .FindClass jni.NNLayer,
           .NewGlobalRef (.localRef jni.NNLayer),
           .DeleteLocalRef (.localRef jni.NNLayer),
           .GetMethodID (.globalRef (w.env.nextGlobal + 1) jni.NNLayer) "<init>"
             "(Ljava/lang/String;IIIIII)V"] },
      REFS := { classGlobalRefs :=
        [(jni.NNLayer, .globalRef (w.env.nextGlobal + 1) jni.NNLayer),
         (jni.ArrayList, .globalRef w.env.nextGlobal jni.ArrayList)] },
      java_ArrayList_ := some ⟨jni.ArrayList, "<init>", "()V"⟩,
      java_ArrayList_add := some ⟨jni.ArrayList, "add", "(Ljava/lang/Object;)Z"⟩,
      dsstne_NNLayer_ := some ⟨jni.NNLayer, "<init>", "(Ljava/lang/String;IIIIII)V"⟩ },
    ?_, rfl, rfl, ?_, ?_⟩
  · simp [JNI_OnLoad, jni.findConstructorId, jni.findMethodId, jni.findClassGlobalRef,
      jni.References.containsClassGlobalRef, jni.References.getClassGlobalRef,
      jni.References.putClassGlobalRef, jni.mapFind, jni.mapPut, hempty, hAL, hNN, hm1, hm2,
      hm3, JNIEnv.FindClass, JNIEnv.NewGlobalRef, JNIEnv.DeleteLocalRef, JNIEnv.GetMethodID,
      JNIEnv.record, jclass.className, jni.CONSTRUCTOR_METHOD_NAME, jni.NO_ARGS_CONSTRUCTOR,
      hne, hlt]
  · exact ⟨by simp [jni.mapFind, hne2, jclass.className],
      by simp [jni.mapFind, jclass.className], rfl, rfl, rfl⟩
  · intro raise2 eng w2 ptr kindOrdinal hrefs hraise2
    exact get_1layers_ne_out_of_range raise2 hraise2 eng w2 ptr kindOrdinal
      (.globalRef w.env.nextGlobal jni.ArrayList) (.globalRef (w.env.nextGlobal + 1) jni.NNLayer)
      (by rw [hrefs]; simp [jni.mapFind, hne2])
      (by rw [hrefs]; simp [jni.mapFind])

/-- C10 at a concrete input: attach in `freshWorld`. -/
theorem JNI_OnLoad_registers_both_types_witness :
    ∃ w1,
      JNI_OnLoad (jni.throwJavaException_const 0) true JNI_OK freshWorld
        = .ok (w1, JNI_VERSION_1_6)
      ∧ w1.REFS.classGlobalRefs =
          [(jni.NNLayer, .globalRef (freshWorld.env.nextGlobal + 1) jni.NNLayer),
           (jni.ArrayList, .globalRef freshWorld.env.nextGlobal jni.ArrayList)]
      ∧ w1.env.trace = freshWorld.env.trace ++
          [.FindClass jni.ArrayList,
           .NewGlobalRef (.localRef jni.ArrayList),
           .DeleteLocalRef (.localRef jni.ArrayList),
           .GetMethodID (.globalRef freshWorld.env.nextGlobal jni.ArrayList) "<init>" "()V",
           .GetMethodID (.globalRef freshWorld.env.nextGlobal jni.ArrayList) "add"
             "(Ljava/lang/Object;)Z",
           .FindClass jni.NNLayer,
           .NewGlobalRef (.localRef jni.NNLayer),
           .DeleteLocalRef (.localRef jni.NNLayer),
           .GetMethodID (.globalRef (freshWorld.env.nextGlobal + 1) jni.NNLayer) "<init>"
             "(Ljava/lang/String;IIIIII)V"]
      ∧ Attached w1
      ∧ ∀ (raise2 : Thrower) (eng : Engine) (w2 : World) (ptr kindOrdinal : Int),
          w2.REFS = w1.REFS →
          (∀ e t m, raise2 e t m ≠ .error .out_of_range) →
          Java_com_amazon_dsstne_Dsstne_get_1layers raise2 eng w2 ptr kindOrdinal
            ≠ .error .out_of_range :=
  JNI_OnLoad_registers_both_types (jni.throwJavaException_const 0) freshWorld rfl
    (by decide) (by decide) (by decide) (by decide) (by decide)

/-! ## The failure paths with the first overload as callee

The same runs with the throw bound to the first overload (lines 74-87), which does reach
`ThrowNew`: the exception becomes pending and the native frame carries on. -/

theorem null_shutdown_with_first_overload :
    Java_com_amazon_dsstne_Dsstne_shutdown jni.throwJavaException_delegating loadedWorld 0
      = .error .null_dereference := rfl

theorem no_match_with_first_overload :
    (Java_com_amazon_dsstne_Dsstne_get_1layers jni.throwJavaException_delegating sampleEngine
        loadedWorld 4096 1).toOption.map (fun r => (r.1.env.pending, r.2, r.1.env.heap))
      = some (some (.localRef jni.RuntimeException,
                    "No layers of type Hidden found in network: net"),
              .ref 0,
              [{ cls := jni.ArrayList, ctorArgs := [], elements := [] }]) := by
  decide

theorem lookup_failure_with_first_overload :
    (jni.findClassGlobalRef jni.throwJavaException_delegating bareEnv { classGlobalRefs := [] }
        jni.NNLayer).toOption.map (fun r => (r.1.pending, r.1.trace, r.2.1, r.2.2))
      = some (some (.localRef jni.ClassNotFoundException, jni.NNLayer),
              [.FindClass jni.NNLayer, .FindClass jni.ClassNotFoundException,
               .ThrowNew (.localRef jni.ClassNotFoundException) jni.NNLayer,
               .NewGlobalRef .null, .DeleteLocalRef .null],
              { classGlobalRefs := [(jni.NNLayer, .null)] }, .null) := by
  decide

end dsstne
